import Mathlib

set_option maxRecDepth 4000

/-
Verification development for the ComplyC repository.

The repository ships two C fixture files (src/examples/sample_good.c and
src/examples/sample_all_bad.c).  The rule engine itself is not part of the
source tree; it is specified in spec.md and exercised by the fixtures.  The
engine-side definitions below are therefore modelled from the specification
text, while the fixture functions (clipu, clips, recursive_function,
use_dynamic_memory) and the structural models of the two fixture files are
transcribed from the C sources.
-/

/-! ## Severity and Violation (spec section 3, "Violation", "RuleConfig") -/

/-- Modelled from the spec: severity classification of a violation
(warning vs. error), spec sections 3 and 4.5. -/
inductive Severity where
  | warning
  | error
deriving DecidableEq

/-- Numeric encoding of a severity, used for the total report order. -/
def Severity.toNat : Severity → Nat
  | .warning => 0
  | .error => 1

/-- Modelled from the spec: a diagnostic record `{file, line, column, ruleId,
severity, message}` (spec sections 3 and 6).  Columns default to 1 in this
development; the fixture transcription records source lines. -/
structure Violation where
  file : String
  line : Nat
  column : Nat
  ruleId : String
  severity : Severity
  message : String
deriving DecidableEq

/-! ## Structural model (spec section 3)

The engine is absent from src/, so the structural model a parser would build
is modelled from spec section 3: macro definitions, variable declarations
with scope, function declarations with parameter lists and block-structured
bodies, and statements as a closed tagged variant. -/

/-- Modelled from the spec: expressions appear in the model only as far as
rules need them — numeric literals with their line, identifiers, operators
(so that logical `&&`/`||` in conditions can be counted), calls with their
callee name and line, and casts (spec sections 3 and 4.3). -/
inductive CExpr where
  | num (value : Int) (line : Nat)
  | ident (name : String)
  | binop (op : String) (lhs rhs : CExpr)
  | unop (op : String) (arg : CExpr)
  | call (callee : String) (args : List CExpr) (line : Nat)
  | castE (tyText : String) (arg : CExpr)

/-- Modelled from the spec: the Statement tagged variant of spec section 3.
An `if/else-if/else` chain is one statement carrying its ordered branches
(condition, line of the `if`/`else if`, whether the body is braced, line of
the opening brace, body) and an optional terminal `else` (line, body); a
missing terminal `else` is the structural fact `els = none`.  A switch case
with value `none` is the `default` label.  Loops record whether their body
is braced and where the opening brace sits, for the formatting rules. -/
inductive Stmt where
  | exprStmt (e : CExpr) (line : Nat)
  | localDecl (name : String) (tyText : String) (init : Option CExpr) (line : Nat)
  | ifChain (branches : List (CExpr × Nat × Bool × Nat × List Stmt))
      (els : Option (Nat × List Stmt))
  | whileStmt (cond : CExpr) (line : Nat) (hasBraces : Bool) (openBraceLine : Nat)
      (body : List Stmt)
  | forStmt (ini : Option CExpr) (cond : Option CExpr) (step : Option CExpr) (line : Nat)
      (hasBraces : Bool) (openBraceLine : Nat) (body : List Stmt)
  | switchStmt (scrut : CExpr) (line : Nat) (cases : List (Option Int × Nat × List Stmt))
  | gotoStmt (label : String) (line : Nat)
  | labelStmt (name : String) (line : Nat)
  | breakStmt (line : Nat)
  | returnStmt (e : Option CExpr) (line : Nat)

/-- One branch of an `if/else-if/else` chain: condition, source line,
whether the body is braced, line of the opening brace, body. -/
abbrev IfBranch := CExpr × Nat × Bool × Nat × List Stmt

/-- Condition of a chain branch. -/
def brCond (b : IfBranch) : CExpr := b.1

/-- Source line of a chain branch. -/
def brLine (b : IfBranch) : Nat := b.2.1

/-- Whether a chain branch's body is braced. -/
def brBraced (b : IfBranch) : Bool := b.2.2.1

/-- Line of a chain branch's opening brace (meaningful when braced). -/
def brBraceLine (b : IfBranch) : Nat := b.2.2.2.1

/-- Modelled from the spec: a macro definition carries its name and location;
no value parsing beyond name-casing checks (spec section 3). -/
structure MacroDef where
  name : String
  line : Nat

/-- Modelled from the spec: storage class of a top-level variable declaration
(global vs. file-static); locals live inside function bodies (spec section 3). -/
inductive Storage where
  | globalVar
  | staticVar
deriving DecidableEq

/-- Modelled from the spec: a variable declaration — name, storage class,
declared type text, location (spec section 3). -/
structure VarDecl where
  name : String
  storage : Storage
  tyText : String
  line : Nat

/-- Modelled from the spec: a function declaration — name, ordered parameter
list (name, type text), return type text, body, location, and whether a
documentation comment immediately precedes it (spec section 3). -/
structure FuncDecl where
  name : String
  params : List (String × String)
  retType : String
  line : Nat
  hasDoc : Bool
  body : List Stmt

/-- Modelled from the spec: the structural model of one source file — path,
macro definitions, top-level variable declarations, function declarations
(spec sections 3 and 4.2). -/
structure FileModel where
  path : String
  macros : List MacroDef
  vars : List VarDecl
  functions : List FuncDecl

/-! ## Expression walkers -/

mutual
/-- Modelled from the spec: number of logical `&&`/`||` occurrences inside an
expression, counted as decision points in conditions (spec section 4.3). -/
def exprOps : CExpr → Nat
  | .num _ _ => 0
  | .ident _ => 0
  | .binop op l r => (if op = "&&" ∨ op = "||" then 1 else 0) + exprOps l + exprOps r
  | .unop _ a => exprOps a
  | .call _ args _ => exprListOps args
  | .castE _ a => exprOps a

/-- Sum of `exprOps` over an argument list. -/
def exprListOps : List CExpr → Nat
  | [] => 0
  | e :: rest => exprOps e + exprListOps rest
end

mutual
/-- Modelled from the spec: all numeric literals of an expression with their
lines, for the magic-number rule (spec section 4.3). -/
def exprLits : CExpr → List (Int × Nat)
  | .num v line => [(v, line)]
  | .ident _ => []
  | .binop _ l r => exprLits l ++ exprLits r
  | .unop _ a => exprLits a
  | .call _ args _ => exprListLits args
  | .castE _ a => exprLits a

/-- Concatenation of `exprLits` over an argument list. -/
def exprListLits : List CExpr → List (Int × Nat)
  | [] => []
  | e :: rest => exprLits e ++ exprListLits rest
end

mutual
/-- Modelled from the spec: all call sites of an expression as (callee, line)
pairs, for the forbidden-call and recursion rules (spec sections 4.3, 4.4). -/
def exprCalls : CExpr → List (String × Nat)
  | .num _ _ => []
  | .ident _ => []
  | .binop _ l r => exprCalls l ++ exprCalls r
  | .unop _ a => exprCalls a
  | .call callee args line => (callee, line) :: exprListCalls args
  | .castE _ a => exprCalls a

/-- Concatenation of `exprCalls` over an argument list. -/
def exprListCalls : List CExpr → List (String × Nat)
  | [] => []
  | e :: rest => exprCalls e ++ exprListCalls rest
end

/-! ## Statement walkers -/

/-- The expressions sitting directly at one statement node (not recursing
into nested blocks): branch conditions of a chain, loop conditions, the
switch scrutinee, initialisers and returned expressions. -/
def nodeExprs : Stmt → List CExpr
  | .exprStmt e _ => [e]
  | .localDecl _ _ init _ => init.toList
  | .ifChain bs _ => bs.map brCond
  | .whileStmt cond _ _ _ _ => [cond]
  | .forStmt ini cond step _ _ _ _ => ini.toList ++ cond.toList ++ step.toList
  | .switchStmt scrut _ _ => [scrut]
  | .gotoStmt _ _ => []
  | .labelStmt _ _ => []
  | .breakStmt _ => []
  | .returnStmt e _ => e.toList

/-- The source line recorded at one statement node (for a chain, the line of
its head `if`). -/
def stmtLine : Stmt → Nat
  | .exprStmt _ line => line
  | .localDecl _ _ _ line => line
  | .ifChain bs _ => (match bs with | [] => 0 | b :: _ => brLine b)
  | .whileStmt _ line _ _ _ => line
  | .forStmt _ _ _ line _ _ _ => line
  | .switchStmt _ line _ => line
  | .gotoStmt _ line => line
  | .labelStmt _ line => line
  | .breakStmt line => line
  | .returnStmt _ line => line

mutual
/-- Generic collector: applies `f` at every statement node of a statement
tree and concatenates the results in source order. -/
def stmtCollect {α : Type} (f : Stmt → List α) : Stmt → List α
  | s@(.ifChain bs e) => f s ++ branchesCollect f bs ++ elsCollect f e
  | s@(.whileStmt _ _ _ _ b) => f s ++ blockCollect f b
  | s@(.forStmt _ _ _ _ _ _ b) => f s ++ blockCollect f b
  | s@(.switchStmt _ _ cs) => f s ++ casesCollect f cs
  | s => f s

/-- `stmtCollect` over a block. -/
def blockCollect {α : Type} (f : Stmt → List α) : List Stmt → List α
  | [] => []
  | s :: rest => stmtCollect f s ++ blockCollect f rest

/-- `stmtCollect` over the branch bodies of a chain. -/
def branchesCollect {α : Type} (f : Stmt → List α) :
    List (CExpr × Nat × Bool × Nat × List Stmt) → List α
  | [] => []
  | (_, _, _, _, b) :: rest => blockCollect f b ++ branchesCollect f rest

/-- `stmtCollect` over an optional terminal else. -/
def elsCollect {α : Type} (f : Stmt → List α) : Option (Nat × List Stmt) → List α
  | none => []
  | some (_, b) => blockCollect f b

/-- `stmtCollect` over switch cases. -/
def casesCollect {α : Type} (f : Stmt → List α) : List (Option Int × Nat × List Stmt) → List α
  | [] => []
  | (_, _, b) :: rest => blockCollect f b ++ casesCollect f rest
end

mutual
/-- Modelled from the spec: decision points of one statement — every `if` and
every `else if` (one per chain branch), every `while`, every `for`, every
`case` label (not `default`), and every `&&`/`||` occurrence within any
condition expression (spec section 4.3). -/
def stmtDecisions : Stmt → Nat
  | .ifChain bs e => branchesDecisions bs + elsDecisions e
  | .whileStmt cond _ _ _ b => 1 + exprOps cond + blockDecisions b
  | .forStmt _ cond _ _ _ _ b =>
      1 + (match cond with | some c => exprOps c | none => 0) + blockDecisions b
  | .switchStmt _ _ cs => casesDecisions cs
  | _ => 0

/-- Sum of `stmtDecisions` over a block. -/
def blockDecisions : List Stmt → Nat
  | [] => 0
  | s :: rest => stmtDecisions s + blockDecisions rest

/-- Decision points of chain branches: one per branch (`if` or `else if`)
plus the `&&`/`||` occurrences of its condition, plus its body. -/
def branchesDecisions : List (CExpr × Nat × Bool × Nat × List Stmt) → Nat
  | [] => 0
  | (cond, _, _, _, b) :: rest => 1 + exprOps cond + blockDecisions b + branchesDecisions rest

/-- Decision points of an optional terminal else (its body only; `else`
itself is not a decision point). -/
def elsDecisions : Option (Nat × List Stmt) → Nat
  | none => 0
  | some (_, b) => blockDecisions b

/-- Decision points of switch cases: one per `case` label (value `some _`),
none for `default`, plus the bodies. -/
def casesDecisions : List (Option Int × Nat × List Stmt) → Nat
  | [] => 0
  | (v, _, b) :: rest =>
      (match v with | some _ => 1 | none => 0) + blockDecisions b + casesDecisions rest
end

mutual
/-- Modelled from the spec: nesting contribution of one statement; the bodies
of `if`/`while`/`for`/`switch` are one level deeper than the surrounding
block, with every branch of a chain at the same level (spec section 4.3). -/
def stmtDepth : Stmt → Nat
  | .ifChain bs e => max (branchesDepth bs) (elsDepth e)
  | .whileStmt _ _ _ _ b => 1 + blockDepth b
  | .forStmt _ _ _ _ _ _ b => 1 + blockDepth b
  | .switchStmt _ _ cs => casesDepth cs
  | _ => 0

/-- Maximum of `stmtDepth` over a block. -/
def blockDepth : List Stmt → Nat
  | [] => 0
  | s :: rest => max (stmtDepth s) (blockDepth rest)

/-- Depth of chain branches: each branch body is one level deeper. -/
def branchesDepth : List (CExpr × Nat × Bool × Nat × List Stmt) → Nat
  | [] => 0
  | (_, _, _, _, b) :: rest => max (1 + blockDepth b) (branchesDepth rest)

/-- Depth of an optional terminal else: its body is one level deeper. -/
def elsDepth : Option (Nat × List Stmt) → Nat
  | none => 0
  | some (_, b) => 1 + blockDepth b

/-- Depth of switch cases: each case body is one level deeper. -/
def casesDepth : List (Option Int × Nat × List Stmt) → Nat
  | [] => 0
  | (_, _, b) :: rest => max (1 + blockDepth b) (casesDepth rest)
end

/-! ## Derived per-function facts (spec section 4.3, Metric Calculator) -/

/-- All numeric literals of a block with their lines. -/
def blockLits (b : List Stmt) : List (Int × Nat) :=
  blockCollect (fun s => (nodeExprs s).foldr (fun e acc => exprLits e ++ acc) []) b

/-- All call sites of a block as (callee, line) pairs. -/
def blockCalls (b : List Stmt) : List (String × Nat) :=
  blockCollect (fun s => (nodeExprs s).foldr (fun e acc => exprCalls e ++ acc) []) b

/-- All local variable declarations of a block as (name, line) pairs. -/
def blockLocals (b : List Stmt) : List (String × Nat) :=
  blockCollect (fun s => match s with
    | .localDecl name _ _ line => [(name, line)]
    | _ => []) b

/-- Lines of all `goto` statements of a block. -/
def blockGotos (b : List Stmt) : List Nat :=
  blockCollect (fun s => match s with
    | .gotoStmt _ line => [line]
    | _ => []) b

/-- Modelled from the spec: whether a loop condition is a compile-time
constant truthy value, detecting `while(1)`; an absent `for` condition
(`for(;;)`) is detected at the statement (spec section 3). -/
def constTruthy : CExpr → Bool
  | .num v _ => v ≠ 0
  | _ => false

/-- Lines of unconditional infinite-loop literals: `while` with a constant
truthy condition, `for` with no condition or a constant truthy one. -/
def blockInfLoops (b : List Stmt) : List Nat :=
  blockCollect (fun s => match s with
    | .whileStmt cond line _ _ _ => if constTruthy cond then [line] else []
    | .forStmt _ cond _ line _ _ _ =>
        (match cond with
          | none => [line]
          | some c => if constTruthy c then [line] else [])
    | _ => []) b

/-- Lines of the heads of `if/else if` chains that contain at least one
`else if` branch and lack a terminal `else` (spec sections 4.2 and 4.4,
rule `CTRL_ELSEIF_001`). -/
def blockChains (b : List Stmt) : List Nat :=
  blockCollect (fun s => match s with
    | .ifChain bs els =>
        (match bs, els with
          | b1 :: _ :: _, none => [brLine b1]
          | _, _ => [])
    | _ => []) b

/-- Lines of conditional/loop statements with a brace-omitted body: chain
branches and loops whose body is not braced (spec section 4.4, Formatting). -/
def blockBracesMissing (b : List Stmt) : List Nat :=
  blockCollect (fun s => match s with
    | .ifChain bs _ => (bs.filter (fun br => ¬ brBraced br)).map brLine
    | .whileStmt _ line hasBraces _ _ => if hasBraces then [] else [line]
    | .forStmt _ _ _ line hasBraces _ _ => if hasBraces then [] else [line]
    | _ => []) b

/-- Lines of braced conditional/loop statements whose opening brace sits on
the same line as the controlling statement (spec section 4.4, Formatting). -/
def blockBraceSameLine (b : List Stmt) : List Nat :=
  blockCollect (fun s => match s with
    | .ifChain bs _ =>
        (bs.filter (fun br => brBraced br ∧ brBraceLine br = brLine br)).map brLine
    | .whileStmt _ line hasBraces obl _ => if hasBraces ∧ obl = line then [line] else []
    | .forStmt _ _ _ line hasBraces obl _ => if hasBraces ∧ obl = line then [line] else []
    | _ => []) b

/-- Greatest source line recorded anywhere in a block. -/
def blockLastLine (b : List Stmt) : Nat :=
  (blockCollect (fun s => [stmtLine s]) b).foldr max 0

/-- Modelled from the spec: per-function metrics (spec sections 3 and 4.3). -/
structure FunctionMetrics where
  lineCount : Nat
  cyclomatic : Nat
  maxNesting : Nat
  paramCount : Nat
  isRecursive : Bool
  magicLits : List (Int × Nat)

/-- Magic numbers of a body: numeric literals not in the allow-list
{0, 1, -1} (spec section 4.3); macro right-hand sides are not part of
function bodies and are not scanned. -/
def magicOf (b : List Stmt) : List (Int × Nat) :=
  (blockLits b).filter (fun p => ¬ (p.1 = 0 ∨ p.1 = 1 ∨ p.1 = -1))

/-- Modelled from the spec: line count of a function — first statement's
start line to last statement's end line, inclusive, not including the
declaration line (spec section 4.3). -/
def funcLineCount (fd : FuncDecl) : Nat :=
  match fd.body with
  | [] => 0
  | s :: _ => blockLastLine fd.body + 1 - stmtLine s

/-- Modelled from the spec: the metric calculator — a deterministic function
from a fully parsed FunctionDeclaration to its FunctionMetrics (spec
section 4.3). -/
def computeMetrics (fd : FuncDecl) : FunctionMetrics :=
  { lineCount := funcLineCount fd
    cyclomatic := 1 + blockDecisions fd.body
    maxNesting := blockDepth fd.body
    paramCount := fd.params.length
    isRecursive := (blockCalls fd.body).any (fun p => p.1 = fd.name)
    magicLits := magicOf fd.body }

/-! ## Configuration (spec sections 2 and 4.4) -/

/-- Modelled from the spec: resolved configuration — naming prefixes, name
length limit, allow-listed short identifiers, forbidden-call list, and the
complexity/size thresholds, with defaults (spec sections 2, 3, 4.4). -/
structure Config where
  namePrefixGlobal : String := "g_"
  namePrefixStatic : String := "s_"
  maxNameLen : Nat := 31
  shortNameAllow : List String := ["i", "j"]
  forbiddenCalls : List String := ["malloc", "calloc", "realloc", "free"]
  maxParams : Nat := 6
  maxNesting : Nat := 4
  maxCyclomatic : Nat := 10
  maxFuncLines : Nat := 50

/-- The default configuration. -/
def defaultConfig : Config := {}

/-- Whether `name` starts with the fixed prefix `pre` (spec section 4.4,
Naming: per-scope prefix conventions), decided on the character lists. -/
def nameBeginsWith (pre name : String) : Bool :=
  pre.toList.isPrefixOf name.toList

/-- Uppercase snake case: only upper-case letters, digits and underscores
(spec section 4.4, Naming). -/
def isUpperSnake (s : String) : Bool :=
  s.toList.all (fun ch => ch.isUpper || ch.isDigit || ch = '_')

/-- Helper building a Violation at column 1 of the given file line. -/
def mkViol (file : String) (line : Nat) (id : String) (sev : Severity) (msg : String) :
    Violation :=
  { file := file, line := line, column := 1, ruleId := id, severity := sev, message := msg }

/-! ## Rule evaluators (spec section 4.4)

Each evaluator is a pure function from (structural model, configuration) to
a sequence of violations, shaped as maps over lists of collected sites. -/

/-- All local variables of all functions of a file, as (name, line). -/
def fileLocals (m : FileModel) : List (String × Nat) :=
  m.functions.flatMap (fun fd => blockLocals fd.body)

/-- Modelled from the spec: the Naming category — macro casing, global and
static prefix conventions, identifier length limit, single-letter locals
outside the allow-list (spec section 4.4). -/
def namingRule (c : Config) (m : FileModel) : List Violation :=
  (m.macros.filter (fun mc => ¬ isUpperSnake mc.name)).map
      (fun mc => mkViol m.path mc.line "NAMING_MACRO_001" .warning
        ("macro " ++ mc.name ++ " is not UPPER_SNAKE_CASE"))
    ++ (m.vars.filter
          (fun v => v.storage = .globalVar ∧ ¬ nameBeginsWith c.namePrefixGlobal v.name)).map
      (fun v => mkViol m.path v.line "NAMING_GLOBAL_001" .warning
        ("global variable " ++ v.name ++ " must start with " ++ c.namePrefixGlobal))
    ++ (m.vars.filter
          (fun v => v.storage = .staticVar ∧ ¬ nameBeginsWith c.namePrefixStatic v.name)).map
      (fun v => mkViol m.path v.line "NAMING_STATIC_001" .warning
        ("static variable " ++ v.name ++ " must start with " ++ c.namePrefixStatic))
    ++ ((m.vars.map (fun v => (v.name, v.line)) ++ fileLocals m).filter
          (fun p => c.maxNameLen < p.1.length)).map
      (fun p => mkViol m.path p.2 "NAMING_VAR_003" .warning
        ("identifier " ++ p.1 ++ " exceeds " ++ toString c.maxNameLen ++ " characters"))
    ++ ((fileLocals m).filter
          (fun p => p.1.length = 1 ∧ ¬ c.shortNameAllow.contains p.1)).map
      (fun p => mkViol m.path p.2 "NAMING_VAR_004" .warning
        ("single-letter variable name " ++ p.1))

/-- Modelled from the spec: the Documentation category — a function lacking an
immediately preceding documentation comment block (spec section 4.4). -/
def docRule (_c : Config) (m : FileModel) : List Violation :=
  (m.functions.filter (fun fd => ¬ fd.hasDoc)).map
    (fun fd => mkViol m.path fd.line "DOC_FUNC_001" .warning
      ("function " ++ fd.name ++ " has no documentation comment"))

/-- All magic-number sites of a file. -/
def magicSites (m : FileModel) : List (Int × Nat) :=
  m.functions.flatMap (fun fd => magicOf fd.body)

/-- Modelled from the spec: the Magic-numbers category — any qualifying
literal not bound to a named constant; threshold-free, occurrence-based
(spec section 4.4). -/
def magicRule (_c : Config) (m : FileModel) : List Violation :=
  (magicSites m).map
    (fun p => mkViol m.path p.2 "MAGIC_NUMBER_001" .warning
      ("magic number " ++ toString p.1))

/-- All forbidden call sites of a file under the configured deny list. -/
def forbiddenCallSites (c : Config) (m : FileModel) : List (String × Nat) :=
  (m.functions.flatMap (fun fd => blockCalls fd.body)).filter
    (fun p => c.forbiddenCalls.contains p.1)

/-- Modelled from the spec: the Dynamic-memory-safety category — name match
of call sites against the configured forbidden-function deny list (spec
section 4.4). -/
def memRule (c : Config) (m : FileModel) : List Violation :=
  (forbiddenCallSites c m).map
    (fun p => mkViol m.path p.2 "SAFETY_DYNAMIC_MEM_001" .error
      ("call to forbidden function " ++ p.1))

/-- Self-call sites of all functions (recursion), as lines. -/
def recursionSites (m : FileModel) : List Nat :=
  m.functions.flatMap
    (fun fd => ((blockCalls fd.body).filter (fun p => p.1 = fd.name)).map (fun p => p.2))

/-- Infinite-loop literal sites of all functions, as lines. -/
def infLoopSites (m : FileModel) : List Nat :=
  m.functions.flatMap (fun fd => blockInfLoops fd.body)

/-- `goto` sites of all functions, as lines. -/
def gotoSites (m : FileModel) : List Nat :=
  m.functions.flatMap (fun fd => blockGotos fd.body)

/-- Heads of `if/else if` chains lacking a terminal `else`, as lines. -/
def chainSites (m : FileModel) : List Nat :=
  m.functions.flatMap (fun fd => blockChains fd.body)

/-- Modelled from the spec: the Control-flow-safety category — recursion
present, unconditional infinite-loop literal, `goto` used, `if/else if`
chain lacking a terminal `else`; structural presence checks (spec
section 4.4). -/
def ctrlRule (_c : Config) (m : FileModel) : List Violation :=
  (recursionSites m).map
      (fun line => mkViol m.path line "SAFETY_RECURSION_001" .error "recursive call")
    ++ (infLoopSites m).map
      (fun line => mkViol m.path line "LOOP_INFINITE_001" .error "unconditional infinite loop")
    ++ (gotoSites m).map
      (fun line => mkViol m.path line "FORBIDDEN_GOTO_001" .error "goto statement")
    ++ (chainSites m).map
      (fun line => mkViol m.path line "CTRL_ELSEIF_001" .error
        "if/else if chain lacks a terminal else")

/-- The one violation the parameter-count rule emits for a function whose
parameter count exceeds the configured maximum, carrying the measured value
and the threshold in the message (spec section 4.4). -/
def paramViolation (c : Config) (path : String) (fd : FuncDecl) : Violation :=
  mkViol path fd.line "FUNC_PARAMS_001" .error
    ("function " ++ fd.name ++ " has " ++ toString fd.params.length
      ++ " parameters, maximum is " ++ toString c.maxParams)

/-- Modelled from the spec: the parameter-count rule `FUNC_PARAMS_001` — one
violation per function whose parameter count exceeds the configured maximum
(spec sections 4.4 and 8). -/
def paramRule (c : Config) (m : FileModel) : List Violation :=
  (m.functions.filter (fun fd => c.maxParams < fd.params.length)).map
    (paramViolation c m.path)

/-- Modelled from the spec: the Complexity/size category — cyclomatic
complexity, line count and nesting depth against their configured maxima,
one violation per function that exceeds, carrying the measured value and the
threshold (spec section 4.4). -/
def complexityRule (c : Config) (m : FileModel) : List Violation :=
  (m.functions.filter (fun fd => c.maxCyclomatic < (computeMetrics fd).cyclomatic)).map
      (fun fd => mkViol m.path fd.line "FUNC_CC_001" .error
        ("function " ++ fd.name ++ " has cyclomatic complexity "
          ++ toString (computeMetrics fd).cyclomatic ++ ", maximum is "
          ++ toString c.maxCyclomatic))
    ++ (m.functions.filter (fun fd => c.maxFuncLines < (computeMetrics fd).lineCount)).map
      (fun fd => mkViol m.path fd.line "FUNC_SIZE_001" .error
        ("function " ++ fd.name ++ " has " ++ toString (computeMetrics fd).lineCount
          ++ " lines, maximum is " ++ toString c.maxFuncLines))
    ++ (m.functions.filter (fun fd => c.maxNesting < (computeMetrics fd).maxNesting)).map
      (fun fd => mkViol m.path fd.line "FUNC_NESTING_001" .error
        ("function " ++ fd.name ++ " has nesting depth "
          ++ toString (computeMetrics fd).maxNesting ++ ", maximum is "
          ++ toString c.maxNesting))

/-- Brace-omitted conditional/loop sites of all functions, as lines. -/
def bracesMissingSites (m : FileModel) : List Nat :=
  m.functions.flatMap (fun fd => blockBracesMissing fd.body)

/-- Same-line opening-brace sites of all functions, as lines. -/
def braceSameLineSites (m : FileModel) : List Nat :=
  m.functions.flatMap (fun fd => blockBraceSameLine fd.body)

/-- Modelled from the spec: the Formatting category — brace omitted on a
single-statement conditional/loop body, and opening brace on the same line
as the controlling statement (spec section 4.4). -/
def formatRule (_c : Config) (m : FileModel) : List Violation :=
  (bracesMissingSites m).map
      (fun line => mkViol m.path line "FORMAT_BRACE_001" .warning
        "conditional body without braces")
    ++ (braceSameLineSites m).map
      (fun line => mkViol m.path line "BRACE_STYLE_002" .warning
        "opening brace on same line as controlling statement")

/-- Modelled from the spec: evaluation of all rule categories on one file's
structural model — a pure function of the structural model and the
configuration (spec sections 2, 3 and 4.4). -/
def evalRules (c : Config) (m : FileModel) : List Violation :=
  namingRule c m ++ docRule c m ++ magicRule c m ++ memRule c m ++ ctrlRule c m
    ++ paramRule c m ++ complexityRule c m ++ formatRule c m

/-! ## Diagnostic Reporter (spec section 4.5) -/

/-- Full sort key of a violation: file path, then line, then column, then
rule ID, then severity and message as final tie-breakers making the order
linear (spec section 4.5 requires a stable total order). -/
def vKey (v : Violation) :
    Lex (String × Lex (Nat × Lex (Nat × Lex (String × Lex (Nat × String))))) :=
  toLex (v.file, toLex (v.line, toLex (v.column,
    toLex (v.ruleId, toLex (v.severity.toNat, v.message)))))

/-- Modelled from the spec: the reporter's ordering relation on violations
(spec section 4.5). -/
def violLE (v w : Violation) : Prop := vKey v ≤ vKey w

instance : DecidableRel violLE :=
  fun v w => inferInstanceAs (Decidable (vKey v ≤ vKey w))

/-- The spec's four-component sort key: file path, line, column, rule ID
(spec section 4.5). -/
def vKey4 (v : Violation) : Lex (String × Lex (Nat × Lex (Nat × String))) :=
  toLex (v.file, toLex (v.line, toLex (v.column, v.ruleId)))

/-- Ordering by file path, then line, then column, then rule ID — the order
the spec states for the final report (spec sections 4.5 and 8). -/
def reportLE (v w : Violation) : Prop := vKey4 v ≤ vKey4 w

theorem vKey_inj {v w : Violation} (h : vKey v = vKey w) : v = w := by
  cases v with
  | mk f l col r s msg =>
    cases w with
    | mk f' l' col' r' s' msg' =>
      simp only [vKey, toLex_inj, Prod.mk.injEq] at h
      obtain ⟨h1, h2, h3, h4, h5, h6⟩ := h
      have hs : s = s' := by
        cases s <;> cases s' <;> simp_all [Severity.toNat]
      simp_all

instance : IsTotal Violation violLE := ⟨fun a b => le_total (vKey a) (vKey b)⟩

instance : IsTrans Violation violLE := ⟨fun _ _ _ h1 h2 => le_trans h1 h2⟩

instance : IsAntisymm Violation violLE := ⟨fun _ _ h1 h2 => vKey_inj (le_antisymm h1 h2)⟩

/-- Modelled from the spec: the Diagnostic Reporter — merges per-file,
per-rule violation sequences into one report ordered by the total order
(spec section 4.5); a single merge/sort once all per-file results are
available (spec section 5). -/
def finalReport (rss : List (List Violation)) : List Violation :=
  List.insertionSort violLE rss.flatten

theorem violLE_imp_reportLE {v w : Violation} (h : violLE v w) : reportLE v w := by
  unfold violLE vKey at h
  unfold reportLE vKey4
  rw [Prod.Lex.le_iff] at h ⊢
  rcases h with h | ⟨h1, h⟩
  · exact Or.inl h
  · refine Or.inr ⟨h1, ?_⟩
    rw [Prod.Lex.le_iff] at h ⊢
    rcases h with h | ⟨h2, h⟩
    · exact Or.inl h
    · refine Or.inr ⟨h2, ?_⟩
      rw [Prod.Lex.le_iff] at h ⊢
      rcases h with h | ⟨h3, h⟩
      · exact Or.inl h
      · refine Or.inr ⟨h3, ?_⟩
        rw [Prod.Lex.le_iff] at h
        rcases h with h | ⟨h4, _⟩
        · exact le_of_lt h
        · exact le_of_eq h4

/-! ## Engine driver, configuration validation, error taxonomy
(spec sections 4.4, 6 and 7) -/

/-- Modelled from the spec: the rule IDs registered in the Rule Registry
(spec sections 1, 4.4 and the fixture comments). -/
def knownRuleIds : List String :=
  ["NAMING_MACRO_001", "NAMING_GLOBAL_001", "NAMING_STATIC_001", "NAMING_VAR_003",
   "NAMING_VAR_004", "DOC_FUNC_001", "MAGIC_NUMBER_001", "SAFETY_DYNAMIC_MEM_001",
   "SAFETY_RECURSION_001", "LOOP_INFINITE_001", "FORBIDDEN_GOTO_001", "CTRL_ELSEIF_001",
   "FUNC_PARAMS_001", "FUNC_CC_001", "FUNC_SIZE_001", "FUNC_NESTING_001",
   "FORMAT_BRACE_001", "BRACE_STYLE_002"]

/-- Modelled from the spec: a fatal configuration error — unknown rule ID or
invalid threshold — raised at startup (spec section 7). -/
structure ConfigError where
  message : String
deriving DecidableEq

/-- Modelled from the spec: validation of the raw configuration document: an
entry naming an unknown/unregistered rule ID, or carrying a negative (hence
invalid) threshold, fails fast with a `ConfigError` (spec sections 4.4
and 7). -/
def validateConfig : List (String × Int) → Option ConfigError
  | [] => none
  | (id, threshold) :: rest =>
      if ¬ knownRuleIds.contains id then some ⟨"unknown rule id: " ++ id⟩
      else if threshold < 0 then some ⟨"invalid threshold for " ++ id⟩
      else validateConfig rest

/-- Modelled from the spec: applying validated raw configuration entries to
the default configuration, overriding per-rule thresholds (spec section 2,
"Configuration"). -/
def applyConfig (raw : List (String × Int)) (c : Config) : Config :=
  raw.foldl
    (fun acc entry =>
      if entry.1 = "FUNC_PARAMS_001" then { acc with maxParams := entry.2.toNat }
      else if entry.1 = "FUNC_CC_001" then { acc with maxCyclomatic := entry.2.toNat }
      else if entry.1 = "FUNC_SIZE_001" then { acc with maxFuncLines := entry.2.toNat }
      else if entry.1 = "FUNC_NESTING_001" then { acc with maxNesting := entry.2.toNat }
      else if entry.1 = "NAMING_VAR_003" then { acc with maxNameLen := entry.2.toNat }
      else acc)
    c

/-- Modelled from the spec: what analysing one file produced — a parsed
structural model, or a file-local failure from the error taxonomy of spec
section 7 (`LexError`, `ParseError`, `TimeoutError`, `IoError`). -/
inductive FileOutcome where
  | parsed (m : FileModel)
  | lexFailure (line : Nat)
  | parseFailure (line : Nat)
  | timeoutFailure
  | ioFailure

/-- One input file of a multi-file run: its path and its outcome. -/
structure FileInput where
  path : String
  outcome : FileOutcome

/-- Modelled from the spec: per-file analysis.  A parsed file is evaluated by
all rules; a file-local error surfaces as a diagnostic in the same report
stream, tagged distinctly, and suppresses further analysis of that file only
(spec sections 4.2 and 7). -/
def analyzeFile (c : Config) (fi : FileInput) : List Violation :=
  match fi.outcome with
  | .parsed m => evalRules c m
  | .lexFailure line => [mkViol fi.path line "LEX_ERROR" .error "malformed token"]
  | .parseFailure line => [mkViol fi.path line "PARSE_ERROR" .error "unbalanced structure"]
  | .timeoutFailure => [mkViol fi.path 1 "TIMEOUT_ERROR" .error "per-file timeout exceeded"]
  | .ioFailure => [mkViol fi.path 1 "IO_ERROR" .error "missing or unreadable file"]

/-- Modelled from the spec: scanning a list of files one after the other;
each file is analysed independently end-to-end (spec sections 5 and 7). -/
def scanFiles (c : Config) : List FileInput → List (List Violation)
  | [] => []
  | f :: rest => analyzeFile c f :: scanFiles c rest

/-- Modelled from the spec: the whole engine — configuration validation at
startup (fatal `ConfigError`, no scanning proceeds), then per-file scanning
and the final merged, sorted report (spec sections 2, 6 and 7). -/
def runEngine (raw : List (String × Int)) (files : List FileInput) :
    Except ConfigError (List Violation) :=
  match validateConfig raw with
  | some e => .error e
  | none => .ok (finalReport (scanFiles (applyConfig raw defaultConfig) files))

/-! ## Structural model of src/examples/sample_good.c

Transcribed from the C source: two documented clip functions, no macro
definitions and no top-level variables.  Line numbers are the 1-based lines
of the file. -/

/-- Structural model of `clipu` (src/examples/sample_good.c lines 78-96):
documented, three parameters, a three-branch if/else-if/else with terminal
else, one local `retVal`, no numeric literals in the body. -/
def clipuDecl : FuncDecl :=
  { name := "clipu"
    params := [("inp", "int32_t"), ("minVal", "uint16_t"), ("maxVal", "uint16_t")]
    retType := "uint16_t"
    line := 78
    hasDoc := true
    body :=
      [ .localDecl "retVal" "uint16_t" none 80,
        .ifChain
          [ (.binop "<" (.ident "inp") (.castE "int32_t" (.ident "minVal")), 82, true, 83,
              [ .exprStmt (.binop "=" (.ident "retVal") (.ident "minVal")) 84 ]),
            (.binop ">" (.ident "inp") (.castE "int32_t" (.ident "maxVal")), 86, true, 87,
              [ .exprStmt (.binop "=" (.ident "retVal") (.ident "maxVal")) 88 ]) ]
          (some (90,
            [ .exprStmt (.binop "=" (.ident "retVal") (.castE "uint16_t" (.ident "inp"))) 92 ])),
        .returnStmt (some (.ident "retVal")) 95 ] }

/-- Structural model of `clips` (src/examples/sample_good.c lines 111-129):
the signed counterpart of `clipu`, same shape. -/
def clipsDecl : FuncDecl :=
  { name := "clips"
    params := [("inp", "int32_t"), ("minVal", "int16_t"), ("maxVal", "int16_t")]
    retType := "int16_t"
    line := 111
    hasDoc := true
    body :=
      [ .localDecl "retVal" "int16_t" none 113,
        .ifChain
          [ (.binop "<" (.ident "inp") (.castE "int32_t" (.ident "minVal")), 115, true, 116,
              [ .exprStmt (.binop "=" (.ident "retVal") (.ident "minVal")) 117 ]),
            (.binop ">" (.ident "inp") (.castE "int32_t" (.ident "maxVal")), 119, true, 120,
              [ .exprStmt (.binop "=" (.ident "retVal") (.ident "maxVal")) 121 ]) ]
          (some (123,
            [ .exprStmt (.binop "=" (.ident "retVal") (.castE "int16_t" (.ident "inp"))) 125 ])),
        .returnStmt (some (.ident "retVal")) 128 ] }

/-- Structural model of src/examples/sample_good.c: no macro definitions, no
top-level variables, the two documented clip functions. -/
def sampleGoodModel : FileModel :=
  { path := "src/examples/sample_good.c"
    macros := []
    vars := []
    functions := [clipuDecl, clipsDecl] }

example : evalRules defaultConfig sampleGoodModel = [] := by decide
example : (computeMetrics clipuDecl).cyclomatic = 3 := by decide
example : (computeMetrics clipuDecl).lineCount = 16 := by decide
example : (computeMetrics clipuDecl).maxNesting = 1 := by decide

/-! ## Structural model of src/examples/sample_all_bad.c

Transcribed from the C source.  The forward declaration on line 22 is a
prototype without a body; the structural model carries function definitions,
so only the definition on line 27 appears.  Line numbers are the 1-based
lines of the file. -/

/-- Structural model of `BadFunctionName` (src/examples/sample_all_bad.c
lines 27-45): undocumented, single-letter locals `x`, `y`, magic numbers,
two braced single-branch ifs. -/
def badFunctionNameDecl : FuncDecl :=
  { name := "BadFunctionName"
    params := [("a", "int"), ("b", "int")]
    retType := "int"
    line := 27
    hasDoc := false
    body :=
      [ .localDecl "x" "int" (some (.num 10 29)) 29,
        .localDecl "y" "int" (some (.num 42 30)) 30,
        .ifChain
          [ (.binop ">" (.ident "a") (.num 5 32), 32, true, 33,
              [ .exprStmt (.binop "+=" (.ident "x") (.num 2 34)) 34 ]) ] none,
        .ifChain
          [ (.binop ">" (.ident "b") (.num 7 37), 37, true, 38,
              [ .exprStmt (.binop "+=" (.ident "y") (.num 3 39)) 39 ]) ] none,
        .exprStmt (.binop "+=" (.ident "bad_global_counter")
          (.binop "+" (.ident "x") (.ident "y"))) 42,
        .exprStmt (.binop "+=" (.ident "fileStaticCounter") (.num 1 43)) 43,
        .returnStmt (some (.binop "+" (.ident "x") (.ident "y"))) 44 ] }

/-- Structural model of `use_dynamic_memory` (src/examples/sample_all_bad.c
lines 48-61): a `malloc` call on line 51, a null-guarded fill loop, and a
`free` call on line 59 inside the guard. -/
def useDynamicMemoryDecl : FuncDecl :=
  { name := "use_dynamic_memory"
    params := []
    retType := "void"
    line := 48
    hasDoc := false
    body :=
      [ .localDecl "i" "int" none 50,
        .localDecl "ptr" "int *"
          (some (.castE "int *"
            (.call "malloc" [.binop "*" (.num 10 51) (.call "sizeof" [.ident "int"] 51)] 51)))
          51,
        .ifChain
          [ (.ident "ptr", 53, true, 54,
              [ .forStmt (some (.binop "=" (.ident "i") (.num 0 55)))
                  (some (.binop "<" (.ident "i") (.num 10 55)))
                  (some (.unop "++" (.ident "i"))) 55 true 56
                  [ .exprStmt (.binop "="
                      (.binop "[]" (.ident "ptr") (.ident "i")) (.ident "i")) 57 ],
                .exprStmt (.call "free" [.ident "ptr"] 59) 59 ]) ] none ] }

/-- Structural model of `recursive_function` (src/examples/sample_all_bad.c
lines 69-97): a three-branch if/else-if chain with no terminal else,
`while(1)`, `for(;;)` with a `goto`, a label, and a self-call on line 96. -/
def recursiveFunctionDecl : FuncDecl :=
  { name := "recursive_function"
    params := [("n", "int")]
    retType := "int"
    line := 69
    hasDoc := false
    body :=
      [ .ifChain
          [ (.binop "<=" (.ident "n") (.num 0 71), 71, true, 72,
              [ .returnStmt (some (.num 0 73)) 73 ]),
            (.binop "==" (.ident "n") (.num 1 75), 75, true, 76,
              [ .returnStmt (some (.num 1 77)) 77 ]),
            (.binop "==" (.ident "n") (.num 2 79), 79, true, 80,
              [ .returnStmt (some (.num 2 81)) 81 ]) ] none,
        .whileStmt (.num 1 85) 85 true 86 [ .breakStmt 87 ],
        .forStmt none none none 90 true 91 [ .gotoStmt "end_label" 92 ],
        .labelStmt "end_label" 95,
        .returnStmt (some (.binop "+" (.ident "n")
          (.call "recursive_function" [.binop "-" (.ident "n") (.num 1 96)] 96))) 96 ] }

/-- Structural model of `function_with_too_many_params`
(src/examples/sample_all_bad.c lines 100-103): seven parameters. -/
def tooManyParamsDecl : FuncDecl :=
  { name := "function_with_too_many_params"
    params := [("a", "int"), ("b", "int"), ("c", "int"), ("d", "int"), ("e", "int"),
               ("f", "int"), ("g", "int")]
    retType := "int"
    line := 100
    hasDoc := false
    body :=
      [ .returnStmt (some (.binop "+" (.binop "+" (.binop "+" (.binop "+" (.binop "+"
          (.binop "+" (.ident "a") (.ident "b")) (.ident "c")) (.ident "d"))
          (.ident "e")) (.ident "f")) (.ident "g"))) 102 ] }

/-- Structural model of `giant_bad_function` (src/examples/sample_all_bad.c
lines 113-189): five nested ifs, a for with an if/else, a while with an if,
a switch with three case labels and a default, magic numbers throughout. -/
def giantBadFunctionDecl : FuncDecl :=
  { name := "giant_bad_function"
    params := [("a", "int")]
    retType := "int"
    line := 113
    hasDoc := false
    body :=
      [ .localDecl "x" "int" (some (.num 0 115)) 115,
        .localDecl "y" "int" (some (.num 1 116)) 116,
        .localDecl "z" "int" (some (.num 2 117)) 117,
        .localDecl "scaled" "int" (some (.binop "*" (.ident "a") (.num 128 118))) 118,
        .localDecl "i" "int" none 119,
        .exprStmt (.binop "=" (.ident "x") (.binop "+" (.ident "x") (.num 10 121))) 121,
        .exprStmt (.binop "=" (.ident "y") (.binop "+" (.ident "y") (.num 20 122))) 122,
        .exprStmt (.binop "=" (.ident "z") (.binop "+" (.ident "z") (.num 30 123))) 123,
        .ifChain
          [ (.binop ">" (.ident "a") (.num 0 125), 125, true, 126,
              [ .exprStmt (.unop "++" (.ident "x")) 127,
                .ifChain
                  [ (.binop ">" (.ident "a") (.num 10 128), 128, true, 129,
                      [ .exprStmt (.unop "++" (.ident "y")) 130,
                        .ifChain
                          [ (.binop ">" (.ident "a") (.num 20 131), 131, true, 132,
                              [ .exprStmt (.unop "++" (.ident "z")) 133,
                                .ifChain
                                  [ (.binop ">" (.ident "a") (.num 30 134), 134, true, 135,
                                      [ .exprStmt (.binop "+=" (.ident "x") (.ident "y")) 136,
                                        .ifChain
                                          [ (.binop ">" (.ident "a") (.num 40 137), 137,
                                              true, 138,
                                              [ .exprStmt (.binop "+=" (.ident "z")
                                                  (.ident "x")) 139 ]) ] none ]) ] none ]) ]
                          none ]) ] none ]) ] none,
        .forStmt (some (.binop "=" (.ident "i") (.num 0 146)))
          (some (.binop "<" (.ident "i") (.num 10 146)))
          (some (.unop "++" (.ident "i"))) 146 true 147
          [ .exprStmt (.binop "+=" (.ident "x") (.ident "i")) 148,
            .ifChain
              [ (.binop "==" (.binop "%" (.ident "x") (.num 2 149)) (.num 0 149), 149,
                  true, 150,
                  [ .exprStmt (.binop "+=" (.ident "y") (.ident "x")) 151 ]) ]
              (some (153, [ .exprStmt (.binop "+=" (.ident "z") (.ident "y")) 155 ])) ],
        .whileStmt (.binop "<" (.ident "x") (.num 100 159)) 159 true 160
          [ .exprStmt (.unop "++" (.ident "x")) 161,
            .exprStmt (.unop "++" (.ident "y")) 162,
            .ifChain
              [ (.binop ">" (.ident "x") (.num 50 163), 163, true, 164,
                  [ .breakStmt 165 ]) ] none ],
        .switchStmt (.ident "a") 169
          [ (some 0, 171, [ .exprStmt (.unop "++" (.ident "x")) 172, .breakStmt 173 ]),
            (some 1, 175, [ .exprStmt (.unop "++" (.ident "y")) 176, .breakStmt 177 ]),
            (some 2, 179, [ .exprStmt (.unop "++" (.ident "z")) 180, .breakStmt 181 ]),
            (none, 183,
              [ .exprStmt (.binop "+=" (.ident "x")
                  (.binop "+" (.binop "+" (.ident "y") (.ident "z")) (.ident "scaled"))) 184,
                .breakStmt 185 ]) ],
        .returnStmt (some (.binop "+" (.binop "+" (.binop "+" (.ident "x") (.ident "y"))
          (.ident "z")) (.ident "scaled"))) 188 ] }

/-- Structural model of `bad_brace_style` (src/examples/sample_all_bad.c
lines 195-203): a brace-omitted single-line if on line 197 and an if with
the opening brace on the same line on line 200. -/
def badBraceStyleDecl : FuncDecl :=
  { name := "bad_brace_style"
    params := [("flag", "int")]
    retType := "void"
    line := 195
    hasDoc := false
    body :=
      [ .ifChain
          [ (.binop ">" (.ident "flag") (.num 0 197), 197, false, 0,
              [ .exprStmt (.unop "++" (.ident "bad_global_counter")) 198 ]) ] none,
        .ifChain
          [ (.binop "<" (.ident "flag") (.num 0 200), 200, true, 200,
              [ .exprStmt (.unop "--" (.ident "fileStaticCounter")) 201 ]) ] none ] }

/-- Structural model of `main` (src/examples/sample_all_bad.c lines
206-215): calls each bad function once. -/
def mainDecl : FuncDecl :=
  { name := "main"
    params := []
    retType := "int"
    line := 206
    hasDoc := false
    body :=
      [ .exprStmt (.call "BadFunctionName" [.num 1 208, .num 2 208] 208) 208,
        .exprStmt (.call "use_dynamic_memory" [] 209) 209,
        .exprStmt (.call "recursive_function" [.num 3 210] 210) 210,
        .exprStmt (.call "function_with_too_many_params"
          [.num 1 211, .num 2 211, .num 3 211, .num 4 211, .num 5 211, .num 6 211,
           .num 7 211] 211) 211,
        .exprStmt (.call "giant_bad_function" [.num 5 212] 212) 212,
        .exprStmt (.call "bad_brace_style" [.num 1 213] 213) 213,
        .returnStmt (some (.num 0 214)) 214 ] }

/-- Structural model of src/examples/sample_all_bad.c: the lower-camel-case
macro (line 10), the unprefixed global (line 13), the unprefixed file-static
(line 16), the over-long global name (line 19), and the seven function
definitions. -/
def sampleAllBadModel : FileModel :=
  { path := "src/examples/sample_all_bad.c"
    macros := [⟨"someMacroValue", 10⟩]
    vars :=
      [ ⟨"bad_global_counter", .globalVar, "int", 13⟩,
        ⟨"fileStaticCounter", .staticVar, "int", 16⟩,
        ⟨"variable_name_that_is_definitely_longer_than_thirty_one_chars",
          .globalVar, "int", 19⟩ ]
    functions :=
      [ badFunctionNameDecl, useDynamicMemoryDecl, recursiveFunctionDecl,
        tooManyParamsDecl, giantBadFunctionDecl, badBraceStyleDecl, mainDecl ] }

/-- Whether the list of violations contains one with the given rule ID at the
given source line. -/
def firesAt (vs : List Violation) (id : String) (line : Nat) : Bool :=
  vs.any (fun v => v.ruleId == id && v.line == line)

example : (computeMetrics giantBadFunctionDecl).cyclomatic = 13 := by decide
example : (computeMetrics giantBadFunctionDecl).maxNesting = 5 := by decide
example : (computeMetrics giantBadFunctionDecl).lineCount = 74 := by decide
example : firesAt (evalRules defaultConfig sampleAllBadModel) "NAMING_MACRO_001" 10 = true := by decide
example : firesAt (evalRules defaultConfig sampleAllBadModel) "CTRL_ELSEIF_001" 71 = true := by decide
example : firesAt (evalRules defaultConfig sampleAllBadModel) "BRACE_STYLE_002" 200 = true := by decide

/-! ## Embeddings of the fixture functions themselves

These are translated from the C sources.  Machine integers are embedded as
`Int` with explicit reduction modulo 2^16 where the C code converts to
`uint16_t`/`int16_t`. -/

/-- The C conversion of an `int32_t` value to `uint16_t`: reduction modulo
2^16 (`Int.emod` by a positive modulus yields the unsigned representative). -/
def toUInt16Wrap (x : Int) : Int := x % 65536

/-- The C conversion of an `int32_t` value to `int16_t`: two's-complement
wrap-around into [-32768, 32767]. -/
def toInt16Wrap (x : Int) : Int := (x + 32768) % 65536 - 32768

/-- Embedding of `clipu` (src/examples/sample_good.c lines 78-96).  `inp` is
the `int32_t` input; `minVal` and `maxVal` hold `uint16_t` values (the casts
`(int32_t) minVal` / `(int32_t) maxVal` in the comparisons are exact, so they
are the identity here); the else branch returns `(uint16_t) inp`. -/
def clipu (inp minVal maxVal : Int) : Int :=
  if inp < minVal then minVal
  else if inp > maxVal then maxVal
  else toUInt16Wrap inp

/-- Embedding of `clips` (src/examples/sample_good.c lines 111-129).  As
`clipu`, with `int16_t` bounds and an `(int16_t) inp` conversion in the else
branch. -/
def clips (inp minVal maxVal : Int) : Int :=
  if inp < minVal then minVal
  else if inp > maxVal then maxVal
  else toInt16Wrap inp

/-- Embedding of `recursive_function` (src/examples/sample_all_bad.c lines
69-97).  The `while (1) { break; }` loop exits immediately and the
`for (;;) { goto end_label; }` loop jumps to the label on its first
iteration, so for n ≥ 3 control reaches `return n + recursive_function (n - 1)`.
Total by well-founded recursion on `n.toNat`. -/
def recursive_function (n : Int) : Int :=
  if _h0 : n ≤ 0 then 0
  else if _h1 : n = 1 then 1
  else if _h2 : n = 2 then 2
  else n + recursive_function (n - 1)
termination_by n.toNat
decreasing_by
  simp_wf
  omega

/-- Embedding of the array store `ptr[i] = v` of `use_dynamic_memory` as an
Option-returning bounds-checked write: `none` signals an out-of-bounds
access. -/
def writeAt (buf : List Int) (i : Nat) (v : Int) : Option (List Int) :=
  if i < buf.length then some (buf.set i v) else none

/-- Embedding of `use_dynamic_memory` (src/examples/sample_all_bad.c lines
48-61).  `mallocOk` states whether `malloc(10 * sizeof(int))` succeeded (the
source tests `if (ptr)`).  On success the loop `for (i = 0; i < 10; i++)
ptr[i] = i;` runs and then `free(ptr)` is called; on failure nothing happens.
The result carries the final buffer (when one was allocated) and whether
`free` was called; `none` would signal an out-of-bounds store. -/
def use_dynamic_memory (mallocOk : Bool) : Option (Option (List Int) × Bool) :=
  if mallocOk then
    match (List.range 10).foldlM (fun buf i => writeAt buf i (Int.ofNat i))
        (List.replicate 10 0) with
    | some buf => some (some buf, true)
    | none => none
  else some (none, false)

/-- The buffer contents `use_dynamic_memory` leaves behind when the
allocation succeeds: entry i holds i. -/
def filledBuffer : List Int := [0, 1, 2, 3, 4, 5, 6, 7, 8, 9]

example : use_dynamic_memory true = some (some filledBuffer, true) := by decide
example : recursive_function 5 = 14 := by
  simp [recursive_function]

/-! ## Claim C8: the clip functions clamp their input -/

/-- C8: for all inputs with minVal ≤ maxVal (and bounds within the value
range of the respective 16-bit return type), `clipu` and `clips` return the
input clamped to [minVal, maxVal]: minVal when inp < minVal, maxVal when
inp > maxVal, the input itself otherwise (the conversion to the return type
is exact there); each input takes exactly one branch and the result lies
between minVal and maxVal. -/
theorem clip_functions_clamp (inp minVal maxVal : Int) :
    (0 ≤ minVal → maxVal < 65536 → minVal ≤ maxVal →
      clipu inp minVal maxVal
          = (if inp < minVal then minVal else if inp > maxVal then maxVal else inp)
        ∧ minVal ≤ clipu inp minVal maxVal ∧ clipu inp minVal maxVal ≤ maxVal)
  ∧ (-32768 ≤ minVal → maxVal ≤ 32767 → minVal ≤ maxVal →
      clips inp minVal maxVal
          = (if inp < minVal then minVal else if inp > maxVal then maxVal else inp)
        ∧ minVal ≤ clips inp minVal maxVal ∧ clips inp minVal maxVal ≤ maxVal) := by
  constructor
  · intro h1 h2 h3
    unfold clipu toUInt16Wrap
    split_ifs with ha hb
    · omega
    · omega
    · omega
  · intro h1 h2 h3
    unfold clips toInt16Wrap
    split_ifs with ha hb
    · omega
    · omega
    · omega

/-- Witness for C8: concrete inputs exercising both clip functions; the
hypotheses hold at 10 ≤ 200 (unsigned) and -100 ≤ 100 (signed). -/
theorem clip_functions_clamp_witness :
    (clipu 300 10 200
        = (if (300:Int) < 10 then (10:Int) else if (300:Int) > 200 then 200 else 300)
      ∧ (10:Int) ≤ clipu 300 10 200 ∧ clipu 300 10 200 ≤ 200)
  ∧ (clips (-40000) (-100) 100
        = (if (-40000:Int) < -100 then (-100:Int) else if (-40000:Int) > 100 then 100
            else -40000)
      ∧ (-100:Int) ≤ clips (-40000) (-100) 100 ∧ clips (-40000) (-100) 100 ≤ 100) :=
  ⟨(clip_functions_clamp 300 10 200).1 (by decide) (by decide) (by decide),
   (clip_functions_clamp (-40000) (-100) 100).2 (by decide) (by decide) (by decide)⟩

/-! ## Claim C9: recursive_function terminates and has a closed form -/

theorem recursive_function_two : recursive_function 2 = 2 := by
  simp [recursive_function]

theorem recursive_function_step {n : Int} (h : 3 ≤ n) :
    recursive_function n = n + recursive_function (n - 1) := by
  rw [recursive_function]
  rw [dif_neg (by omega), dif_neg (by omega), dif_neg (by omega)]

/-- C9: `recursive_function` terminates on every integer input (the
definition above is total, by well-founded recursion on `n.toNat`, the
recursive call decreasing n by 1 toward the base cases at n ≤ 2), and for
n ≥ 3 its value is n*(n+1)/2 - 1 in exact integer arithmetic. -/
theorem recursive_function_closed_form (n : Int) (h : 3 ≤ n) :
    recursive_function n = n * (n + 1) / 2 - 1 := by
  refine @Int.le_induction (fun t => recursive_function t = t * (t + 1) / 2 - 1) 3 ?_ ?_ n h
  · show recursive_function 3 = 3 * (3 + 1) / 2 - 1
    rw [recursive_function_step (by omega)]
    norm_num [recursive_function_two]
  · intro m hm ih
    show recursive_function (m + 1) = (m + 1) * (m + 1 + 1) / 2 - 1
    rw [recursive_function_step (by omega)]
    have hsub : m + 1 - 1 = m := by ring
    rw [hsub, ih]
    have ha : (m + 1) * (m + 1 + 1) = m * (m + 1) + 2 * (m + 1) := by ring
    obtain ⟨k, hk⟩ := Int.even_mul_succ_self m
    rw [hk] at ha ⊢
    rw [ha]
    omega

/-- Witness for C9: the closed form at n = 5, where 3 ≤ 5; the value is 14. -/
theorem recursive_function_closed_form_witness :
    (3:Int) ≤ 5 ∧ recursive_function 5 = 5 * (5 + 1) / 2 - 1 :=
  ⟨by decide, recursive_function_closed_form 5 (by decide)⟩

/-! ## Claim C10: use_dynamic_memory is memory safe -/

/-- C10: in `use_dynamic_memory` every store through the allocated buffer is
in bounds — the bounds-checked embedding never returns `none`, for either
allocation outcome — and `free` is called exactly on the branch where the
`malloc` result is non-null: the freed flag of the result is true iff the
allocation succeeded. -/
theorem use_dynamic_memory_safe :
    (∀ mallocOk : Bool, (use_dynamic_memory mallocOk).isSome = true)
  ∧ (∀ (mallocOk : Bool) (res : Option (List Int) × Bool),
      use_dynamic_memory mallocOk = some res → (res.2 = true ↔ mallocOk = true)) := by
  constructor
  · intro m
    cases m <;> decide
  · intro m res h
    cases m with
    | false =>
        have he : use_dynamic_memory false = some (none, false) := by decide
        rw [he] at h
        cases h
        simp
    | true =>
        have he : use_dynamic_memory true = some (some filledBuffer, true) := by decide
        rw [he] at h
        cases h
        simp

/-- Witness for C10: the successful-allocation run stores 0..9 in bounds and
reports the buffer freed. -/
theorem use_dynamic_memory_safe_witness :
    use_dynamic_memory true = some (some filledBuffer, true)
    ∧ (((some filledBuffer, true) : Option (List Int) × Bool).2 = true ↔ true = true) :=
  ⟨by decide, use_dynamic_memory_safe.2 true (some filledBuffer, true) (by decide)⟩

/-! ## Claim C1: determinism of rule evaluation and of the engine -/

/-- C1: rule evaluation is a pure function of the structural model and the
configuration — evaluating twice on the same input yields the same violation
set — and running the whole engine twice on identical input and
configuration yields the identical report.  In this embedding both are Lean
functions, so the two-run equality is definitional. -/
theorem engine_deterministic :
    (∀ (c : Config) (m : FileModel), evalRules c m = evalRules c m)
  ∧ (∀ (raw : List (String × Int)) (files : List FileInput),
      runEngine raw files = runEngine raw files) :=
  ⟨fun _ _ => rfl, fun _ _ => rfl⟩

/-! ## Claim C2: the conformant fixture yields zero violations -/

/-- C2: analysing the structural model of src/examples/sample_good.c — only
the two correctly named, documented, low-complexity clip functions with
braced branches, a terminal else, at most 3 parameters and no magic
numbers — produces no violation under the default configuration. -/
theorem conformant_file_zero_violations :
    evalRules defaultConfig sampleGoodModel = [] := by decide

/-! ## Claim C3: the adversarial fixture trips every exercised rule
category at its source line -/

/-- C3: analysing the structural model of src/examples/sample_all_bad.c
under the default configuration produces at least one violation for every
rule category the fixture exercises, each at the source line of the
offending construct: the lower-camel-case macro (line 10), the unprefixed
global (13), the unprefixed static (16), the single-letter local (29), magic
numbers (29, 30), the undocumented function (27), malloc (51) and free (59),
the self-call (96), the else-less if/else-if chain (71), while(1) (85) and
for(;;) (90), the goto (92), the 7-parameter function (100), complexity,
size and nesting of giant_bad_function (113), the brace-omitted if (197) and
the same-line opening brace (200). -/
theorem adversarial_file_detects_all :
    (firesAt (evalRules defaultConfig sampleAllBadModel) "NAMING_MACRO_001" 10
      && firesAt (evalRules defaultConfig sampleAllBadModel) "NAMING_GLOBAL_001" 13
      && firesAt (evalRules defaultConfig sampleAllBadModel) "NAMING_STATIC_001" 16
      && firesAt (evalRules defaultConfig sampleAllBadModel) "NAMING_VAR_003" 19
      && firesAt (evalRules defaultConfig sampleAllBadModel) "NAMING_VAR_004" 29
      && firesAt (evalRules defaultConfig sampleAllBadModel) "NAMING_VAR_004" 30
      && firesAt (evalRules defaultConfig sampleAllBadModel) "DOC_FUNC_001" 27
      && firesAt (evalRules defaultConfig sampleAllBadModel) "MAGIC_NUMBER_001" 29
      && firesAt (evalRules defaultConfig sampleAllBadModel) "MAGIC_NUMBER_001" 30
      && firesAt (evalRules defaultConfig sampleAllBadModel) "SAFETY_DYNAMIC_MEM_001" 51
      && firesAt (evalRules defaultConfig sampleAllBadModel) "SAFETY_DYNAMIC_MEM_001" 59
      && firesAt (evalRules defaultConfig sampleAllBadModel) "SAFETY_RECURSION_001" 96
      && firesAt (evalRules defaultConfig sampleAllBadModel) "CTRL_ELSEIF_001" 71
      && firesAt (evalRules defaultConfig sampleAllBadModel) "LOOP_INFINITE_001" 85
      && firesAt (evalRules defaultConfig sampleAllBadModel) "LOOP_INFINITE_001" 90
      && firesAt (evalRules defaultConfig sampleAllBadModel) "FORBIDDEN_GOTO_001" 92
      && firesAt (evalRules defaultConfig sampleAllBadModel) "FUNC_PARAMS_001" 100
      && firesAt (evalRules defaultConfig sampleAllBadModel) "FUNC_CC_001" 113
      && firesAt (evalRules defaultConfig sampleAllBadModel) "FUNC_SIZE_001" 113
      && firesAt (evalRules defaultConfig sampleAllBadModel) "FUNC_NESTING_001" 113
      && firesAt (evalRules defaultConfig sampleAllBadModel) "FORMAT_BRACE_001" 197
      && firesAt (evalRules defaultConfig sampleAllBadModel) "BRACE_STYLE_002" 200) = true := by
  decide

/-! ## Claim C5: cyclomatic complexity is 1 + decision points; 13 for
giant_bad_function -/

/-- C5: for every fully parsed function the metric calculator returns
cyclomatic complexity 1 + (number of decision points: every if and else-if
branch, every case label excluding default, every while, every for, every
`&&`/`||` in a condition), and on the structural model of
`giant_bad_function` (five nested ifs, a for containing an if, a while
containing an if, three case labels and a default) this yields 13. -/
theorem cyclomatic_complexity_law :
    (∀ fd : FuncDecl, (computeMetrics fd).cyclomatic = 1 + blockDecisions fd.body)
  ∧ (computeMetrics giantBadFunctionDecl).cyclomatic = 13 :=
  ⟨fun _ => rfl, by decide⟩

/-! ## Claim C4: the parameter-count rule fires exactly once per exceeding
function, carrying the measured count -/

theorem filter_map_eq_nil {α β : Type} (p : β → Bool) (f : α → β) (l : List α)
    (h : ∀ a, p (f a) = false) : (l.map f).filter p = [] := by
  induction l with
  | nil => rfl
  | cons a t ih => simp [List.filter_cons, h a, ih]

theorem filter_map_eq_self {α β : Type} (p : β → Bool) (f : α → β) (l : List α)
    (h : ∀ a, p (f a) = true) : (l.map f).filter p = l.map f := by
  induction l with
  | nil => rfl
  | cons a t ih => simp [List.filter_cons, h a, ih]

/-- The predicate selecting parameter-count violations. -/
def isParamViol (v : Violation) : Bool := v.ruleId == "FUNC_PARAMS_001"

theorem namingRule_filter_params (c : Config) (m : FileModel) :
    (namingRule c m).filter isParamViol = [] := by
  unfold namingRule
  simp only [List.filter_append]
  rw [filter_map_eq_nil _ _ _ (fun a => rfl), filter_map_eq_nil _ _ _ (fun a => rfl),
    filter_map_eq_nil _ _ _ (fun a => rfl), filter_map_eq_nil _ _ _ (fun a => rfl),
    filter_map_eq_nil _ _ _ (fun a => rfl)]
  rfl

theorem docRule_filter_params (c : Config) (m : FileModel) :
    (docRule c m).filter isParamViol = [] := by
  unfold docRule
  exact filter_map_eq_nil _ _ _ (fun a => rfl)

theorem magicRule_filter_params (c : Config) (m : FileModel) :
    (magicRule c m).filter isParamViol = [] := by
  unfold magicRule
  exact filter_map_eq_nil _ _ _ (fun a => rfl)

theorem memRule_filter_params (c : Config) (m : FileModel) :
    (memRule c m).filter isParamViol = [] := by
  unfold memRule
  exact filter_map_eq_nil _ _ _ (fun a => rfl)

theorem ctrlRule_filter_params (c : Config) (m : FileModel) :
    (ctrlRule c m).filter isParamViol = [] := by
  unfold ctrlRule
  simp only [List.filter_append]
  rw [filter_map_eq_nil _ _ _ (fun a => rfl), filter_map_eq_nil _ _ _ (fun a => rfl),
    filter_map_eq_nil _ _ _ (fun a => rfl), filter_map_eq_nil _ _ _ (fun a => rfl)]
  rfl

theorem complexityRule_filter_params (c : Config) (m : FileModel) :
    (complexityRule c m).filter isParamViol = [] := by
  unfold complexityRule
  simp only [List.filter_append]
  rw [filter_map_eq_nil _ _ _ (fun a => rfl), filter_map_eq_nil _ _ _ (fun a => rfl),
    filter_map_eq_nil _ _ _ (fun a => rfl)]
  rfl

theorem formatRule_filter_params (c : Config) (m : FileModel) :
    (formatRule c m).filter isParamViol = [] := by
  unfold formatRule
  simp only [List.filter_append]
  rw [filter_map_eq_nil _ _ _ (fun a => rfl), filter_map_eq_nil _ _ _ (fun a => rfl)]
  rfl

theorem paramRule_filter_params (c : Config) (m : FileModel) :
    (paramRule c m).filter isParamViol = paramRule c m := by
  unfold paramRule
  exact filter_map_eq_self _ _ _ (fun a => rfl)

/-- C4: among all violations the engine evaluates on any structural model
and configuration, those with rule ID FUNC_PARAMS_001 are exactly one
violation per function whose parameter count exceeds the configured maximum
(`paramViolation`, whose message carries the measured count and the
threshold); on the adversarial fixture this is exactly one violation, for
`function_with_too_many_params` at line 100, carrying the count 7 and the
default threshold 6. -/
theorem func_params_rule_exact :
    (∀ (c : Config) (m : FileModel),
      (evalRules c m).filter isParamViol
        = (m.functions.filter (fun fd => c.maxParams < fd.params.length)).map
            (paramViolation c m.path))
  ∧ (evalRules defaultConfig sampleAllBadModel).filter isParamViol
      = [paramViolation defaultConfig "src/examples/sample_all_bad.c" tooManyParamsDecl]
  ∧ paramViolation defaultConfig "src/examples/sample_all_bad.c" tooManyParamsDecl
      = { file := "src/examples/sample_all_bad.c", line := 100, column := 1,
          ruleId := "FUNC_PARAMS_001", severity := .error,
          message := "function function_with_too_many_params has 7 parameters, maximum is 6" } := by
  refine ⟨fun c m => ?_, by decide, by decide⟩
  unfold evalRules
  simp only [List.filter_append, namingRule_filter_params, docRule_filter_params,
    magicRule_filter_params, memRule_filter_params, ctrlRule_filter_params,
    complexityRule_filter_params, formatRule_filter_params, paramRule_filter_params]
  simp [paramRule]

/-! ## Claim C6: the final report is sorted by file, line, column, rule ID,
independently of the order per-file results arrive -/

/-- C6: for every input, the final report is sorted under the stable total
order by file path, then line, then column, then rule ID; and any two runs
whose per-file results carry the same violations (in any arrival order)
produce the identical report. -/
theorem report_sorted_and_order_independent :
    (∀ rss : List (List Violation), List.Sorted reportLE (finalReport rss))
  ∧ (∀ rss₁ rss₂ : List (List Violation),
      rss₁.flatten.Perm rss₂.flatten → finalReport rss₁ = finalReport rss₂) := by
  constructor
  · intro rss
    exact (List.sorted_insertionSort violLE rss.flatten).imp
      (fun hab => violLE_imp_reportLE hab)
  · intro rss₁ rss₂ hperm
    have p1 := List.perm_insertionSort violLE rss₁.flatten
    have p2 := List.perm_insertionSort violLE rss₂.flatten
    exact List.eq_of_perm_of_sorted (p1.trans (hperm.trans p2.symm))
      (List.sorted_insertionSort violLE rss₁.flatten)
      (List.sorted_insertionSort violLE rss₂.flatten)

/-- A sample warning used to exercise the reporter. -/
def sampleViolA : Violation :=
  { file := "b.c", line := 1, column := 1, ruleId := "NAMING_MACRO_001",
    severity := .warning, message := "m1" }

/-- A second sample violation on an earlier file path. -/
def sampleViolB : Violation :=
  { file := "a.c", line := 2, column := 3, ruleId := "FUNC_CC_001",
    severity := .error, message := "m2" }

/-- Witness for C6: at a concrete pair of single-file results, the report is
sorted and swapping the order of the per-file results leaves it unchanged. -/
theorem report_sorted_and_order_independent_witness :
    List.Sorted reportLE (finalReport [[sampleViolA], [sampleViolB]])
    ∧ finalReport [[sampleViolA], [sampleViolB]] = finalReport [[sampleViolB], [sampleViolA]] :=
  ⟨report_sorted_and_order_independent.1 [[sampleViolA], [sampleViolB]],
   report_sorted_and_order_independent.2 [[sampleViolA], [sampleViolB]]
     [[sampleViolB], [sampleViolA]] (by decide)⟩

/-! ## Claim C7: file-local errors never abort a multi-file run; a bad
configuration is fatal at startup -/

theorem scanFiles_eq_map (c : Config) (files : List FileInput) :
    scanFiles c files = files.map (analyzeFile c) := by
  induction files with
  | nil => rfl
  | cons f t ih => simp [scanFiles, ih]

/-- C7: error propagation is file-local except for configuration errors — a
file whose outcome is a LexError, ParseError, TimeoutError or IoError
contributes only its own diagnostic while every other file of the run is
still analysed (scanning a run is the independent per-file analysis of each
file), whereas an unknown rule ID or invalid threshold makes the engine
return the ConfigError at startup and no scanning proceeds. -/
theorem error_propagation :
    (∀ (c : Config) (pre post : List FileInput) (f : FileInput),
      scanFiles c (pre ++ f :: post)
        = scanFiles c pre ++ analyzeFile c f :: scanFiles c post)
  ∧ (∀ (raw : List (String × Int)) (files : List FileInput),
      validateConfig raw = none →
      runEngine raw files
        = .ok (finalReport (files.map (analyzeFile (applyConfig raw defaultConfig)))))
  ∧ (∀ (raw : List (String × Int)) (files : List FileInput) (e : ConfigError),
      validateConfig raw = some e → runEngine raw files = .error e) := by
  refine ⟨fun c pre post f => ?_, fun raw files h => ?_, fun raw files e h => ?_⟩
  · simp [scanFiles_eq_map, scanFiles]
  · unfold runEngine
    rw [h, scanFiles_eq_map]
  · unfold runEngine
    rw [h]

/-- Witness for C7: a concrete run in which the middle file fails to parse
while its neighbours are analysed; a valid configuration override is applied
and scanning proceeds; an unknown rule ID is fatal. -/
theorem error_propagation_witness :
    scanFiles defaultConfig
        ([⟨"a.c", .parsed sampleGoodModel⟩] ++ ⟨"b.c", .parseFailure 3⟩ :: [⟨"c.c", .ioFailure⟩])
      = scanFiles defaultConfig [⟨"a.c", .parsed sampleGoodModel⟩]
          ++ analyzeFile defaultConfig ⟨"b.c", .parseFailure 3⟩
            :: scanFiles defaultConfig [⟨"c.c", .ioFailure⟩]
    ∧ runEngine [("FUNC_PARAMS_001", 4)] [⟨"b.c", .parseFailure 3⟩]
        = .ok (finalReport ([⟨"b.c", .parseFailure 3⟩].map
            (analyzeFile (applyConfig [("FUNC_PARAMS_001", 4)] defaultConfig))))
    ∧ runEngine [("NO_SUCH_RULE", 1)] [⟨"b.c", .parseFailure 3⟩]
        = .error ⟨"unknown rule id: NO_SUCH_RULE"⟩ :=
  ⟨error_propagation.1 defaultConfig [⟨"a.c", .parsed sampleGoodModel⟩]
      [⟨"c.c", .ioFailure⟩] ⟨"b.c", .parseFailure 3⟩,
   error_propagation.2.1 [("FUNC_PARAMS_001", 4)] [⟨"b.c", .parseFailure 3⟩] (by decide),
   error_propagation.2.2 [("NO_SUCH_RULE", 1)] [⟨"b.c", .parseFailure 3⟩]
     ⟨"unknown rule id: NO_SUCH_RULE"⟩ (by decide)⟩
